import Mathlib

set_option maxRecDepth 8000

/-!
Verification of the MuKa farm-classification core.

Shallow embedding of `muka_analysis` (models.py, classifier.py, analyzer.py):
the indicator-mode profile table, the first-match classifier, and the
per-group statistics aggregator, together with theorems checking the
spec's claims about them.

Numeric dataframe cells are modelled as `Option ℚ`: `none` stands for a
pandas `NaN` (missing) cell, and the per-series statistics skip missing
values the way pandas `Series.min/max/mean/median` (skipna) do, returning
`none` (NaN) when no valid value remains. Python attribute access on the
record model is modelled explicitly (`getattrNumeric`), because
`FarmAnalyzer._create_dataframe` reads five numeric attributes that
`models.FarmData` does not declare, so analyzer construction raises
`AttributeError` for every non-empty record list.
-/

namespace Muka

/-- Farm group labels (`models.FarmGroup`). -/
inductive FarmGroup where
  | muku
  | mukuAmme
  | milchvieh
  | bkmmz
  | bkmoz
  | ikm
deriving DecidableEq, Repr

/-- String value of each farm group (the `models.FarmGroup` enum values). -/
def FarmGroup.str : FarmGroup → String
  | .muku => "Muku"
  | .mukuAmme => "Muku_Amme"
  | .milchvieh => "Milchvieh"
  | .bkmmz => "BKMmZ"
  | .bkmoz => "BKMoZ"
  | .ikm => "IKM"

/-- All six farm groups, in declaration order. -/
def FarmGroup.all : List FarmGroup :=
  [.muku, .mukuAmme, .milchvieh, .bkmmz, .bkmoz, .ikm]

/-- Indicator modes (`models.IndicatorMode`). -/
inductive IndicatorMode where
  | sixIndicators
  | sixIndicatorsFlex
  | fourIndicators
  | fiveIndicators
  | fiveIndicatorsFlex
deriving DecidableEq, Repr

/-- String value of each mode (the `models.IndicatorMode` enum values),
in declaration order. -/
def IndicatorMode.value : IndicatorMode → String
  | .sixIndicators => "6-indicators"
  | .sixIndicatorsFlex => "6-indicators-flex"
  | .fourIndicators => "4-indicators"
  | .fiveIndicators => "5-indicators"
  | .fiveIndicatorsFlex => "5-indicators-flex"

/-- Lookup of a mode by its string value (`IndicatorMode(indicator_mode)`
in `FarmClassifier.__init__`): `none` models the `ValueError` raised by the
enum constructor for an unsupported string. -/
def IndicatorMode.ofString (s : String) : Option IndicatorMode :=
  if s = "6-indicators" then some .sixIndicators
  else if s = "6-indicators-flex" then some .sixIndicatorsFlex
  else if s = "4-indicators" then some .fourIndicators
  else if s = "5-indicators" then some .fiveIndicators
  else if s = "5-indicators-flex" then some .fiveIndicatorsFlex
  else none

/-- The list `[m.value for m in IndicatorMode]` used in the classifier's
error message. -/
def validModeValues : List String :=
  ["6-indicators", "6-indicators-flex", "4-indicators", "5-indicators",
   "5-indicators-flex"]

/-- Profile row of the classification rule table (`models.GroupProfile`).
The first four slots are plain binary ints in the source; the two slaughter
slots are `Optional[int]`, where Python `None` (here `Option.none`) is the
wildcard that matches any value. -/
structure GroupProfile where
  group_name : FarmGroup
  female_dairy_cattle : Nat
  female_cattle : Nat
  calf_arrivals : Nat
  calf_non_slaughter_leavings : Nat
  female_slaughterings : Option Nat
  young_slaughterings : Option Nat
deriving DecidableEq, Repr

/-- `GroupProfile.matches` (models.py): strict equality on the four
non-optional slots, and `None`-or-equal on the two slaughter slots. -/
def GroupProfile.matches (p : GroupProfile)
    (female_dairy female_cattle calf_arrivals calf_leavings
     female_slaughter young_slaughter : Nat) : Bool :=
  p.female_dairy_cattle == female_dairy
    && p.female_cattle == female_cattle
    && p.calf_arrivals == calf_arrivals
    && p.calf_non_slaughter_leavings == calf_leavings
    && (p.female_slaughterings.isNone
        || p.female_slaughterings == some female_slaughter)
    && (p.young_slaughterings.isNone
        || p.young_slaughterings == some young_slaughter)

/-- `FarmClassifier._create_profiles`: the ordered profile table for each
indicator mode, transcribed literally from classifier.py. -/
def createProfiles : IndicatorMode → List GroupProfile
  | .sixIndicators =>
      [{ group_name := .muku, female_dairy_cattle := 0, female_cattle := 0,
         calf_arrivals := 0, calf_non_slaughter_leavings := 0,
         female_slaughterings := some 0, young_slaughterings := some 1 },
       { group_name := .mukuAmme, female_dairy_cattle := 0, female_cattle := 0,
         calf_arrivals := 1, calf_non_slaughter_leavings := 0,
         female_slaughterings := some 0, young_slaughterings := some 1 },
       { group_name := .milchvieh, female_dairy_cattle := 1, female_cattle := 0,
         calf_arrivals := 0, calf_non_slaughter_leavings := 1,
         female_slaughterings := some 0, young_slaughterings := some 0 },
       { group_name := .bkmmz, female_dairy_cattle := 1, female_cattle := 0,
         calf_arrivals := 1, calf_non_slaughter_leavings := 0,
         female_slaughterings := some 0, young_slaughterings := some 1 },
       { group_name := .bkmoz, female_dairy_cattle := 1, female_cattle := 0,
         calf_arrivals := 0, calf_non_slaughter_leavings := 0,
         female_slaughterings := some 0, young_slaughterings := some 1 },
       { group_name := .ikm, female_dairy_cattle := 0, female_cattle := 1,
         calf_arrivals := 1, calf_non_slaughter_leavings := 0,
         female_slaughterings := some 0, young_slaughterings := some 1 }]
  | .sixIndicatorsFlex =>
      [{ group_name := .muku, female_dairy_cattle := 0, female_cattle := 0,
         calf_arrivals := 0, calf_non_slaughter_leavings := 0,
         female_slaughterings := some 0, young_slaughterings := some 1 },
       { group_name := .mukuAmme, female_dairy_cattle := 0, female_cattle := 0,
         calf_arrivals := 1, calf_non_slaughter_leavings := 0,
         female_slaughterings := some 0, young_slaughterings := some 1 },
       { group_name := .milchvieh, female_dairy_cattle := 1, female_cattle := 0,
         calf_arrivals := 0, calf_non_slaughter_leavings := 1,
         female_slaughterings := some 0, young_slaughterings := none },
       { group_name := .bkmmz, female_dairy_cattle := 1, female_cattle := 0,
         calf_arrivals := 1, calf_non_slaughter_leavings := 0,
         female_slaughterings := some 0, young_slaughterings := some 1 },
       { group_name := .bkmoz, female_dairy_cattle := 1, female_cattle := 0,
         calf_arrivals := 0, calf_non_slaughter_leavings := 0,
         female_slaughterings := some 0, young_slaughterings := some 1 },
       { group_name := .ikm, female_dairy_cattle := 0, female_cattle := 1,
         calf_arrivals := 1, calf_non_slaughter_leavings := 0,
         female_slaughterings := some 0, young_slaughterings := some 1 }]
  | .fourIndicators =>
      [{ group_name := .muku, female_dairy_cattle := 0, female_cattle := 0,
         calf_arrivals := 0, calf_non_slaughter_leavings := 0,
         female_slaughterings := none, young_slaughterings := none },
       { group_name := .mukuAmme, female_dairy_cattle := 0, female_cattle := 0,
         calf_arrivals := 1, calf_non_slaughter_leavings := 0,
         female_slaughterings := none, young_slaughterings := none },
       { group_name := .milchvieh, female_dairy_cattle := 1, female_cattle := 0,
         calf_arrivals := 0, calf_non_slaughter_leavings := 1,
         female_slaughterings := none, young_slaughterings := none },
       { group_name := .bkmmz, female_dairy_cattle := 1, female_cattle := 0,
         calf_arrivals := 1, calf_non_slaughter_leavings := 0,
         female_slaughterings := none, young_slaughterings := none },
       { group_name := .bkmoz, female_dairy_cattle := 1, female_cattle := 0,
         calf_arrivals := 0, calf_non_slaughter_leavings := 0,
         female_slaughterings := none, young_slaughterings := none },
       { group_name := .ikm, female_dairy_cattle := 0, female_cattle := 1,
         calf_arrivals := 1, calf_non_slaughter_leavings := 0,
         female_slaughterings := none, young_slaughterings := none }]
  | .fiveIndicators =>
      [{ group_name := .muku, female_dairy_cattle := 0, female_cattle := 0,
         calf_arrivals := 0, calf_non_slaughter_leavings := 0,
         female_slaughterings := none, young_slaughterings := some 1 },
       { group_name := .mukuAmme, female_dairy_cattle := 0, female_cattle := 0,
         calf_arrivals := 1, calf_non_slaughter_leavings := 0,
         female_slaughterings := none, young_slaughterings := some 1 },
       { group_name := .milchvieh, female_dairy_cattle := 1, female_cattle := 0,
         calf_arrivals := 0, calf_non_slaughter_leavings := 1,
         female_slaughterings := none, young_slaughterings := some 0 },
       { group_name := .bkmmz, female_dairy_cattle := 1, female_cattle := 0,
         calf_arrivals := 1, calf_non_slaughter_leavings := 0,
         female_slaughterings := none, young_slaughterings := some 1 },
       { group_name := .bkmoz, female_dairy_cattle := 1, female_cattle := 0,
         calf_arrivals := 0, calf_non_slaughter_leavings := 0,
         female_slaughterings := none, young_slaughterings := some 1 },
       { group_name := .ikm, female_dairy_cattle := 0, female_cattle := 1,
         calf_arrivals := 1, calf_non_slaughter_leavings := 0,
         female_slaughterings := none, young_slaughterings := some 1 }]
  | .fiveIndicatorsFlex =>
      [{ group_name := .muku, female_dairy_cattle := 0, female_cattle := 0,
         calf_arrivals := 0, calf_non_slaughter_leavings := 0,
         female_slaughterings := none, young_slaughterings := some 1 },
       { group_name := .mukuAmme, female_dairy_cattle := 0, female_cattle := 0,
         calf_arrivals := 1, calf_non_slaughter_leavings := 0,
         female_slaughterings := none, young_slaughterings := some 1 },
       { group_name := .milchvieh, female_dairy_cattle := 1, female_cattle := 0,
         calf_arrivals := 0, calf_non_slaughter_leavings := 1,
         female_slaughterings := none, young_slaughterings := none },
       { group_name := .bkmmz, female_dairy_cattle := 1, female_cattle := 0,
         calf_arrivals := 1, calf_non_slaughter_leavings := 0,
         female_slaughterings := none, young_slaughterings := some 1 },
       { group_name := .bkmoz, female_dairy_cattle := 1, female_cattle := 0,
         calf_arrivals := 0, calf_non_slaughter_leavings := 0,
         female_slaughterings := none, young_slaughterings := some 1 },
       { group_name := .ikm, female_dairy_cattle := 0, female_cattle := 1,
         calf_arrivals := 1, calf_non_slaughter_leavings := 0,
         female_slaughterings := none, young_slaughterings := some 1 }]

/-- The fifteen numeric fields of `FarmAnalyzer.NUMERIC_FIELDS`. -/
inductive NumericField where
  | nAnimalsTotal
  | nFemalesAge3Dairy
  | nDaysFemaleAge3Dairy
  | nDaysFemaleAge3Double
  | nDaysFemaleAge3DairydoubleV2
  | animalyearDaysFemaleAge3Dairy
  | animalyearDaysFemaleAge3Double
  | animalyearDaysFemaleAge3DairydoubleV2
  | propDaysFemaleAge3Dairy
  | nFemalesAge3Total
  | nTotalEntriesYounger85
  | nTotalLeavingsYounger51
  | nFemalesYounger731
  | propFemalesSlaughteringsYounger731
  | nAnimalsFrom51To730
deriving DecidableEq, Repr

/-- `FarmAnalyzer.NUMERIC_FIELDS`, in source order. -/
def numericFields : List NumericField :=
  [.nAnimalsTotal, .nFemalesAge3Dairy, .nDaysFemaleAge3Dairy,
   .nDaysFemaleAge3Double, .nDaysFemaleAge3DairydoubleV2,
   .animalyearDaysFemaleAge3Dairy, .animalyearDaysFemaleAge3Double,
   .animalyearDaysFemaleAge3DairydoubleV2, .propDaysFemaleAge3Dairy,
   .nFemalesAge3Total, .nTotalEntriesYounger85, .nTotalLeavingsYounger51,
   .nFemalesYounger731, .propFemalesSlaughteringsYounger731,
   .nAnimalsFrom51To730]

/-- One farm record in the shape the analysis pipeline handles: the six
binary classification indicators (all the classifier reads), the assigned
group (`None` before classification or when unclassifiable), and one
numeric cell per `NUMERIC_FIELDS` entry in the shape the statistics
routines process (`none` models a pandas NaN cell). This cell space is
deliberately wider than `models.FarmData`, which declares only ten of the
fifteen numeric fields — each required and ge-validated, hence never
missing — and does not declare the other five at all; attribute access
against the declared set is modelled by `getattrNumeric` below, and the
universally quantified statistics theorems only gain strength from the
wider cell space. -/
structure FarmData where
  tvd : Nat
  indicator_female_dairy_cattle_v2 : Nat
  indicator_female_cattle : Nat
  indicator_calf_arrivals : Nat
  indicator_calf_leavings : Nat
  indicator_female_slaughterings : Nat
  indicator_young_slaughterings : Nat
  group : Option FarmGroup
  numerics : NumericField → Option ℚ

/-- `FarmClassifier.classify_farm`: walk the mode's profile list in order
and return the group of the first profile that `matches` the record's six
indicators; `none` when no profile matches. -/
def classifyFarm (mode : IndicatorMode) (farm : FarmData) : Option FarmGroup :=
  ((createProfiles mode).find? fun p =>
      p.matches farm.indicator_female_dairy_cattle_v2
        farm.indicator_female_cattle farm.indicator_calf_arrivals
        farm.indicator_calf_leavings farm.indicator_female_slaughterings
        farm.indicator_young_slaughterings).map (·.group_name)

/-- `FarmClassifier.__init__`: validate the mode string, failing with the
pair (bad mode string, list of valid modes) — the content of the raised
error message — and otherwise build the profile table. -/
def classifierInit (indicator_mode : String) :
    Except (String × List String) (List GroupProfile) :=
  match IndicatorMode.ofString indicator_mode with
  | none => .error (indicator_mode, validModeValues)
  | some m => .ok (createProfiles m)

/-- A record carrying just the six classification indicators (helper for
concrete test inputs). -/
def mkIndFarm (a b c d e f : Nat) : FarmData :=
  { tvd := 0, indicator_female_dairy_cattle_v2 := a,
    indicator_female_cattle := b, indicator_calf_arrivals := c,
    indicator_calf_leavings := d, indicator_female_slaughterings := e,
    indicator_young_slaughterings := f, group := none,
    numerics := fun _ => none }

/-! Spec-side definitions (written from the spec's words, for the
refinement claims) -/

/-- The six expected-value slots of a profile, uniformly as
`Option Nat` (`none` = wildcard), in slot order 1–6. -/
def profileSlots (p : GroupProfile) : List (Option Nat) :=
  [some p.female_dairy_cattle, some p.female_cattle, some p.calf_arrivals,
   some p.calf_non_slaughter_leavings, p.female_slaughterings,
   p.young_slaughterings]

/-- The record's six indicators, in slot order 1–6. -/
def recordIndicators (r : FarmData) : List Nat :=
  [r.indicator_female_dairy_cattle_v2, r.indicator_female_cattle,
   r.indicator_calf_arrivals, r.indicator_calf_leavings,
   r.indicator_female_slaughterings, r.indicator_young_slaughterings]

/-- Spec wording for one slot: the expected value is wildcard OR equals the
record's indicator. -/
def slotAccepts : Option Nat → Nat → Bool
  | none, _ => true
  | some e, v => e == v

/-- Spec wording for a whole profile: every one of the six slots accepts the
record's corresponding indicator. -/
def specProfileMatches (p : GroupProfile) (r : FarmData) : Bool :=
  ((profileSlots p).zip (recordIndicators r)).all fun ev => slotAccepts ev.1 ev.2

/-- Spec wording for classification: walk the profile list in order, return
the category of the first matching profile, `none` if the list is
exhausted. -/
def specClassifyWalk : List GroupProfile → FarmData → Option FarmGroup
  | [], _ => none
  | p :: ps, r =>
      if specProfileMatches p r then some p.group_name
      else specClassifyWalk ps r

/-- Spec wording for the whole classifier: walk the mode's profile list in
builder order. -/
def specClassify (mode : IndicatorMode) (r : FarmData) : Option FarmGroup :=
  specClassifyWalk (createProfiles mode) r

/-- Claim table, spec side: the fixed category order of the profile list. -/
def specOrder : List FarmGroup :=
  [.muku, .mukuAmme, .milchvieh, .bkmmz, .bkmoz, .ikm]

/-- Claim table, spec side: concrete slot patterns per category
(slots 1–4, then the values slots 5 and 6 take where fixed); Dairy's fixed
slot-6 value is 0, all other categories' is 1. -/
def specBaseSlots : FarmGroup → Nat × Nat × Nat × Nat × Nat × Nat
  | .muku => (0, 0, 0, 0, 0, 1)
  | .mukuAmme => (0, 0, 1, 0, 0, 1)
  | .milchvieh => (1, 0, 0, 1, 0, 0)
  | .bkmmz => (1, 0, 1, 0, 0, 1)
  | .bkmoz => (1, 0, 0, 0, 0, 1)
  | .ikm => (0, 1, 1, 0, 0, 1)

/-- Claim table, spec side: slot 5 is wildcard for all categories exactly in
the four, five-strict and five-flex modes. -/
def specSlot5Wildcard : IndicatorMode → Bool
  | .fourIndicators | .fiveIndicators | .fiveIndicatorsFlex => true
  | .sixIndicators | .sixIndicatorsFlex => false

/-- Claim table, spec side: slot 6 is wildcard for all categories in the
four mode, and for Dairy only in the six-flex and five-flex modes. -/
def specSlot6Wildcard (m : IndicatorMode) (g : FarmGroup) : Bool :=
  m == .fourIndicators
    || (g == .milchvieh
        && (m == .sixIndicatorsFlex || m == .fiveIndicatorsFlex))

/-- The profile table as the claim describes it: six profiles in the fixed
order, slots from the concrete patterns, wildcards per the mode table. -/
def specProfilesFromTable (m : IndicatorMode) : List GroupProfile :=
  specOrder.map fun g =>
    let s := specBaseSlots g
    { group_name := g
      female_dairy_cattle := s.1
      female_cattle := s.2.1
      calf_arrivals := s.2.2.1
      calf_non_slaughter_leavings := s.2.2.2.1
      female_slaughterings :=
        if specSlot5Wildcard m then none else some s.2.2.2.2.1
      young_slaughterings :=
        if specSlot6Wildcard m g then none else some s.2.2.2.2.2 }

/-- The four never-wildcard slots of a profile, as a tuple. -/
def firstFour (p : GroupProfile) : Nat × Nat × Nat × Nat :=
  (p.female_dairy_cattle, p.female_cattle, p.calf_arrivals,
   p.calf_non_slaughter_leavings)

/-- Matching a record's first four indicators against a profile's first four
slots alone. -/
def firstFourMatches (p : GroupProfile) (a b c d : Nat) : Bool :=
  p.female_dairy_cattle == a && p.female_cattle == b
    && p.calf_arrivals == c && p.calf_non_slaughter_leavings == d

/-! Helper lemmas. -/

/-- The source `matches` coincides with the spec's slotwise
wildcard-or-equal reading. -/
theorem matches_eq_specProfileMatches (p : GroupProfile) (r : FarmData) :
    p.matches r.indicator_female_dairy_cattle_v2 r.indicator_female_cattle
      r.indicator_calf_arrivals r.indicator_calf_leavings
      r.indicator_female_slaughterings r.indicator_young_slaughterings
      = specProfileMatches p r := by
  rcases p with ⟨g, a, b, c, d, e, f⟩
  cases e <;> cases f <;>
    simp [GroupProfile.matches, specProfileMatches, profileSlots,
      recordIndicators, slotAccepts, Bool.and_assoc]

/-- `find?` applied to pointwise-equal predicates agrees. -/
theorem findPredCongr {α : Type} (p q : α → Bool) :
    ∀ l : List α, (∀ x ∈ l, p x = q x) → l.find? p = l.find? q := by
  intro l
  induction l with
  | nil => intro _; rfl
  | cons x xs ih =>
      intro h
      have hx := h x (by simp)
      cases hq : q x with
      | true =>
          rw [List.find?_cons_of_pos _ (hx ▸ hq), List.find?_cons_of_pos _ hq]
      | false =>
          rw [List.find?_cons_of_neg _ (by simp [hx, hq]),
            List.find?_cons_of_neg _ (by simp [hq])]
          exact ih fun y hy => h y (by simp [hy])

/-- If `f` is injective on a list (no duplicate images), at most one element
passes any filter that pins down the image of `f`. -/
theorem nodupMapFilterLeOne {α β : Type} [DecidableEq β] (f : α → β)
    (q : α → Bool) (v : β) (hq : ∀ x, q x = true ↔ f x = v) :
    ∀ l : List α, (l.map f).Nodup → (l.filter q).length ≤ 1 := by
  intro l
  induction l with
  | nil => intro _; simp
  | cons x xs ih =>
      intro hnd
      rw [List.map_cons, List.nodup_cons] at hnd
      cases hx : q x with
      | false => simpa [List.filter_cons, hx] using ih hnd.2
      | true =>
          have hfx : f x = v := (hq x).mp hx
          have hrest : xs.filter q = [] := by
            rw [List.filter_eq_nil_iff]
            intro y hy hqy
            exact hnd.1 (hfx ▸ (hq y).mp hqy ▸ List.mem_map_of_mem f hy)
          simp [List.filter_cons, hx, hrest]

/-! Claims about the classifier. -/

/-- Claim C1. For every indicator mode and record, `classify_farm` walks the
mode's profile list in builder order and returns the category of the first
profile in which every one of the six slots is wildcard or equal to the
record's corresponding indicator, and `none` when no profile matches. -/
theorem classify_is_first_match_walk :
    ∀ (mode : IndicatorMode) (r : FarmData),
      classifyFarm mode r = specClassify mode r := by
  intro mode r
  show ((createProfiles mode).find? _).map _ = specClassifyWalk _ r
  generalize createProfiles mode = ps
  induction ps with
  | nil => rfl
  | cons p ps ih =>
      cases h : specProfileMatches p r with
      | true =>
          rw [specClassifyWalk, if_pos h,
            List.find?_cons_of_pos _ ((matches_eq_specProfileMatches p r) ▸ h)]
          rfl
      | false =>
          rw [specClassifyWalk, if_neg (by simp [h]),
            List.find?_cons_of_neg _ (by
              simp [matches_eq_specProfileMatches p r, h])]
          exact ih

/-- Claim C2. Every mode's profile table is exactly the six profiles, one per
category, in the fixed order, with the claimed concrete slot patterns and
the claimed per-mode wildcard placement. -/
theorem profile_table_matches_claim :
    ∀ m : IndicatorMode,
      createProfiles m = specProfilesFromTable m
        ∧ (createProfiles m).length = 6
        ∧ (createProfiles m).map (·.group_name) = specOrder := by
  intro m
  cases m <;> exact ⟨by decide, by decide, by decide⟩

/-- Claim C3. In every mode, the first-four-slot tuples of the six profiles
are pairwise distinct, so at most one profile can match any record on
slots 1–4 alone. -/
theorem first_four_slots_mutually_exclusive :
    ∀ mode : IndicatorMode,
      ((createProfiles mode).map firstFour).Nodup
        ∧ ∀ a b c d : Nat,
            ((createProfiles mode).filter
              fun p => firstFourMatches p a b c d).length ≤ 1 := by
  intro mode
  have hnd : ((createProfiles mode).map firstFour).Nodup := by
    cases mode <;> decide
  refine ⟨hnd, fun a b c d => ?_⟩
  refine nodupMapFilterLeOne firstFour _ (a, b, c, d) ?_ _ hnd
  intro p
  rcases p with ⟨g, x1, x2, x3, x4, e, f⟩
  simp [firstFourMatches, firstFour, Prod.ext_iff, and_assoc]

/-- Claim C4. Under the four-indicators mode classification depends only on
the first four indicators: two records agreeing on slots 1–4 classify
identically; in particular `[0,0,0,0,0,0]` and `[0,0,0,0,1,1]` both
classify as Mother-Cow (`Muku`). -/
theorem four_mode_depends_only_on_first_four :
    (∀ r r' : FarmData,
        r.indicator_female_dairy_cattle_v2 = r'.indicator_female_dairy_cattle_v2 →
        r.indicator_female_cattle = r'.indicator_female_cattle →
        r.indicator_calf_arrivals = r'.indicator_calf_arrivals →
        r.indicator_calf_leavings = r'.indicator_calf_leavings →
        classifyFarm .fourIndicators r = classifyFarm .fourIndicators r')
      ∧ classifyFarm .fourIndicators (mkIndFarm 0 0 0 0 0 0) = some .muku
      ∧ classifyFarm .fourIndicators (mkIndFarm 0 0 0 0 1 1) = some .muku := by
  refine ⟨fun r r' h1 h2 h3 h4 => ?_, by decide, by decide⟩
  have hwild : ∀ p ∈ createProfiles .fourIndicators,
      p.female_slaughterings = none ∧ p.young_slaughterings = none := by
    decide
  unfold classifyFarm
  rw [findPredCongr _ _ (createProfiles .fourIndicators) ?_]
  intro p hp
  obtain ⟨h5, h6⟩ := hwild p hp
  simp [GroupProfile.matches, h5, h6, h1, h2, h3, h4]

/-- Witness for C4 at concrete inputs. -/
theorem four_mode_depends_only_on_first_four_witness :
    classifyFarm .fourIndicators (mkIndFarm 0 0 0 0 0 1)
      = classifyFarm .fourIndicators (mkIndFarm 0 0 0 0 1 0) :=
  four_mode_depends_only_on_first_four.1 _ _ rfl rfl rfl rfl

/-- Claim C5. Constructing a classifier from a string that is not one of the
five supported mode values fails with an error carrying the bad string and
the list of all five valid mode values; every valid mode string
constructs successfully. -/
theorem invalid_mode_rejected_listing_valid_modes :
    validModeValues = ["6-indicators", "6-indicators-flex", "4-indicators",
        "5-indicators", "5-indicators-flex"]
      ∧ (∀ s : String, s ∉ validModeValues →
          classifierInit s = .error (s, validModeValues))
      ∧ (∀ s : String, s ∈ validModeValues →
          ∃ ps, classifierInit s = .ok ps) := by
  refine ⟨rfl, fun s hs => ?_, fun s hs => ?_⟩
  · simp only [validModeValues, List.mem_cons, List.not_mem_nil, or_false,
      not_or] at hs
    obtain ⟨n1, n2, n3, n4, n5⟩ := hs
    simp [classifierInit, IndicatorMode.ofString, n1, n2, n3, n4, n5]
  · simp only [validModeValues, List.mem_cons, List.not_mem_nil,
      or_false] at hs
    rcases hs with rfl | rfl | rfl | rfl | rfl <;> exact ⟨_, rfl⟩

/-- Witness for C5: one invalid and one valid mode string. -/
theorem invalid_mode_rejected_listing_valid_modes_witness :
    classifierInit "7-indicators" = .error ("7-indicators", validModeValues)
      ∧ ∃ ps, classifierInit "6-indicators" = .ok ps :=
  ⟨invalid_mode_rejected_listing_valid_modes.2.1 "7-indicators" (by decide),
   invalid_mode_rejected_listing_valid_modes.2.2 "6-indicators" (by decide)⟩

/-- Claim C10. Under the six-strict mode every record with the
female-slaughterings indicator set to 1 is unclassified: all six profiles
fix slot 5 to 0. -/
theorem six_strict_slot5_one_unclassified :
    ∀ r : FarmData, r.indicator_female_slaughterings = 1 →
      classifyFarm .sixIndicators r = none := by
  intro r h
  simp [classifyFarm, createProfiles, GroupProfile.matches, h, List.find?]

/-- Witness for C10 at a concrete record. -/
theorem six_strict_slot5_one_unclassified_witness :
    classifyFarm .sixIndicators (mkIndFarm 1 0 0 1 1 0) = none :=
  six_strict_slot5_one_unclassified _ rfl

/-! Aggregator (analyzer.py).

The analyzer works on the dataframe built by `_create_dataframe`; a series
statistic (`Series.min/max/mean/median`) skips missing (NaN) cells and is
itself NaN — modelled as `none` — when no valid cell remains. -/

/-- The valid (non-missing) values of a series, in row order. -/
def validValues (vals : List (Option ℚ)) : List ℚ := vals.filterMap id

/-- `Series.min` (skipna). -/
def seriesMin (vals : List (Option ℚ)) : Option ℚ :=
  match validValues vals with
  | [] => none
  | x :: xs => some (xs.foldl min x)

/-- `Series.max` (skipna). -/
def seriesMax (vals : List (Option ℚ)) : Option ℚ :=
  match validValues vals with
  | [] => none
  | x :: xs => some (xs.foldl max x)

/-- `Series.mean` (skipna): arithmetic mean of the valid values. -/
def seriesMean (vals : List (Option ℚ)) : Option ℚ :=
  let v := validValues vals
  if v.length = 0 then none else some (v.sum / v.length)

/-- `Series.median` (skipna): sort the valid values; middle element for odd
length, average of the two middle elements for even length. -/
def seriesMedian (vals : List (Option ℚ)) : Option ℚ :=
  let s := (validValues vals).insertionSort (· ≤ ·)
  if s.length = 0 then none
  else if s.length % 2 = 1 then some (s.getD (s.length / 2) 0)
  else some ((s.getD (s.length / 2 - 1) 0 + s.getD (s.length / 2) 0) / 2)

/-- The four statistics recorded per field in a group's row
(`{field}_min`, `{field}_max`, `{field}_mean`, `{field}_median`). -/
structure FieldStats where
  min : Option ℚ
  max : Option ℚ
  mean : Option ℚ
  median : Option ℚ
deriving DecidableEq, Repr

/-- The statistics of one series. -/
def mkFieldStats (vals : List (Option ℚ)) : FieldStats :=
  { min := seriesMin vals, max := seriesMax vals, mean := seriesMean vals,
    median := seriesMedian vals }

/-- One row of the `calculate_group_statistics` output: the group, its farm
count, and the per-field statistics. -/
structure GroupStatsRow where
  group : FarmGroup
  count : Nat
  stats : List (NumericField × FieldStats)
deriving DecidableEq, Repr

/-- The column set `calculate_group_statistics` checks each field against
(`field in group_df.columns`): `_create_dataframe` lists every
`NUMERIC_FIELDS` key in its row dict. (In the current source the dataframe
construction never completes for a non-empty record list — five of those
attribute reads raise `AttributeError` first, see `createDataframe` — so
this is the column set of the row dict the code attempts to build.) -/
def dataframeNumericColumns : List NumericField := numericFields

/-- The classified records (`group` not `None`). -/
def classifiedFarms (farms : List FarmData) : List FarmData :=
  farms.filter fun f => f.group.isSome

/-- The classified records assigned to one group (one `groupby` bucket). -/
def groupFarms (farms : List FarmData) (g : FarmGroup) : List FarmData :=
  (classifiedFarms farms).filter fun f => decide (f.group = some g)

/-- One group's column of dataframe cells for one field. -/
def groupCells (farms : List FarmData) (g : FarmGroup)
    (fld : NumericField) : List (Option ℚ) :=
  (groupFarms farms g).map (·.numerics fld)

/-- One group's valid values for one field. -/
def fieldValidValues (farms : List FarmData) (g : FarmGroup)
    (fld : NumericField) : List ℚ :=
  validValues (groupCells farms g fld)

/-- The stats row of one group: count plus, for each numeric field that is
among the dataframe's columns, that field's statistics. -/
def mkGroupRow (farms : List FarmData) (g : FarmGroup) : GroupStatsRow :=
  { group := g
    count := (groupFarms farms g).length
    stats := numericFields.filterMap fun fld =>
      if dataframeNumericColumns.contains fld then
        some (fld, mkFieldStats (groupCells farms g fld))
      else none }

/-- The canonical group order the analyzer sorts its rows by
(`group_order` in `calculate_group_statistics`). -/
def analyzerGroupOrder : List FarmGroup :=
  [.muku, .mukuAmme, .milchvieh, .bkmmz, .bkmoz, .ikm]

/-- `FarmAnalyzer.calculate_group_statistics` (no group filter): one row
per nonempty group of classified records, in the canonical group order;
empty when there is no classified record. -/
def calculateGroupStatistics (farms : List FarmData) : List GroupStatsRow :=
  analyzerGroupOrder.filterMap fun g =>
    if (groupFarms farms g).isEmpty then none else some (mkGroupRow farms g)

/-- The Python attribute name of each numeric field. -/
def attrName : NumericField → String
  | .nAnimalsTotal => "n_animals_total"
  | .nFemalesAge3Dairy => "n_females_age3_dairy"
  | .nDaysFemaleAge3Dairy => "n_days_female_age3_dairy"
  | .nDaysFemaleAge3Double => "n_days_female_age3_double"
  | .nDaysFemaleAge3DairydoubleV2 => "n_days_female_age3_dairydouble_V2"
  | .animalyearDaysFemaleAge3Dairy => "animalyear_days_female_age3_dairy"
  | .animalyearDaysFemaleAge3Double => "animalyear_days_female_age3_double"
  | .animalyearDaysFemaleAge3DairydoubleV2 =>
      "animalyear_days_female_age3_dairydouble_V2"
  | .propDaysFemaleAge3Dairy => "prop_days_female_age3_dairy"
  | .nFemalesAge3Total => "n_females_age3_total"
  | .nTotalEntriesYounger85 => "n_total_entries_younger85"
  | .nTotalLeavingsYounger51 => "n_total_leavings_younger51"
  | .nFemalesYounger731 => "n_females_younger731"
  | .propFemalesSlaughteringsYounger731 =>
      "prop_females_slaughterings_younger731"
  | .nAnimalsFrom51To730 => "n_animals_from51_to730"

/-- The ten `NUMERIC_FIELDS` entries that `models.FarmData` actually
declares (required, ge-validated). The other five —
`n_days_female_age3_double`, `n_days_female_age3_dairydouble_V2` and the
three `animalyear_*` fields — are read by `_create_dataframe` and passed
to the constructor by io_utils, but absent from the model, so reading
them raises `AttributeError`. -/
def declaredNumericFields : List NumericField :=
  [.nAnimalsTotal, .nFemalesAge3Dairy, .nDaysFemaleAge3Dairy,
   .propDaysFemaleAge3Dairy, .nFemalesAge3Total, .nTotalEntriesYounger85,
   .nTotalLeavingsYounger51, .nFemalesYounger731,
   .propFemalesSlaughteringsYounger731, .nAnimalsFrom51To730]

/-- The errors `FarmAnalyzer.__init__` can raise: the documented
empty-list `ValueError` guard, and the `AttributeError` (carrying the
attribute name) from `_create_dataframe` reading an undeclared
`FarmData` attribute. -/
inductive AnalyzerError where
  | valueError (msg : String)
  | attributeError (attr : String)
deriving DecidableEq, Repr

/-- Python attribute access `farm.<field>` on a `models.FarmData`
instance: a declared field yields its value, an undeclared one raises
`AttributeError` naming the attribute. -/
def getattrNumeric (f : FarmData) (fld : NumericField) :
    Except AnalyzerError (Option ℚ) :=
  if declaredNumericFields.contains fld then .ok (f.numerics fld)
  else .error (.attributeError (attrName fld))

/-- One row dict of `FarmAnalyzer._create_dataframe`: tvd, year, the
indicators and the group all exist, then every `NUMERIC_FIELDS` attribute
is read in list order, so the first undeclared attribute read raises; on
success the row carries the record's data. -/
def buildDataframeRow (f : FarmData) : Except AnalyzerError FarmData :=
  (numericFields.mapM (getattrNumeric f)).map fun _ => f

/-- `FarmAnalyzer._create_dataframe`: one row per record, first failure
propagating. -/
def createDataframe (farms : List FarmData) :
    Except AnalyzerError (List FarmData) :=
  farms.mapM buildDataframeRow

/-- `FarmAnalyzer.__init__`: the empty-list `ValueError` guard, then
`self.df = self._create_dataframe()`. -/
def analyzerInit (farms : List FarmData) :
    Except AnalyzerError (List FarmData) :=
  if farms.isEmpty then
    .error (.valueError "Cannot initialize analyzer with empty farms list")
  else createDataframe farms

/-- Number of records with no assigned group. -/
def unclassifiedCount (farms : List FarmData) : Nat :=
  (farms.filter fun f => f.group.isNone).length

/-- `FarmAnalyzer.get_group_counts`, as the mapping it returns: one entry
per group observed among the classified records (`value_counts` only lists
observed values; its descending-count ordering is not part of the mapping),
plus an `"Unclassified"` entry when unclassified records exist. -/
def getGroupCounts (farms : List FarmData) : List (String × Nat) :=
  (FarmGroup.all.filterMap fun g =>
    if 0 < (groupFarms farms g).length then
      some (g.str, (groupFarms farms g).length)
    else none)
    ++ (if 0 < unclassifiedCount farms then
          [("Unclassified", unclassifiedCount farms)]
        else [])

/-- Analyzer construction fails for every non-empty record list: the row
dict of the first record reaches `n_days_female_age3_double`, the first
`NUMERIC_FIELDS` attribute `models.FarmData` does not declare. -/
theorem analyzerInit_nonempty_attribute_error :
    ∀ farms : List FarmData, farms ≠ [] →
      analyzerInit farms
        = .error (.attributeError "n_days_female_age3_double") := by
  intro farms hne
  rcases farms with _ | ⟨f, fs⟩
  · exact absurd rfl hne
  · rfl

/-- Claim C6 (code bug). The empty-list guard raises the documented
error, but the claim's no-raise half fails in the source: for every
non-empty record list — classified or not — construction raises
`AttributeError` on the first undeclared numeric attribute before any
statistics can run. The intended empty group-statistics result for
all-unclassified records does hold of the statistics routine itself. -/
theorem empty_input_guard_vs_no_classified :
    analyzerInit []
        = .error (.valueError "Cannot initialize analyzer with empty farms list")
      ∧ (∀ farms : List FarmData, farms ≠ [] →
          analyzerInit farms
            = .error (.attributeError "n_days_female_age3_double"))
      ∧ (∀ farms : List FarmData, (∀ f ∈ farms, f.group = none) →
          calculateGroupStatistics farms = []) := by
  refine ⟨rfl, analyzerInit_nonempty_attribute_error, fun farms hall => ?_⟩
  have hg : ∀ g, groupFarms farms g = [] := by
    intro g
    rw [groupFarms, classifiedFarms, List.filter_filter,
      List.filter_eq_nil_iff]
    intro f hf
    simp [hall f hf]
  simp [calculateGroupStatistics, analyzerGroupOrder, hg, List.filterMap_cons]

/-- Witness for C6 at a concrete one-record unclassified list. -/
theorem empty_input_guard_vs_no_classified_witness :
    analyzerInit [mkIndFarm 0 0 0 0 0 0]
        = .error (.attributeError "n_days_female_age3_double")
      ∧ calculateGroupStatistics [mkIndFarm 0 0 0 0 0 0] = [] :=
  ⟨empty_input_guard_vs_no_classified.2.1 _ (by simp),
   empty_input_guard_vs_no_classified.2.2 _
     (by intro f hf; rw [List.mem_singleton] at hf; subst hf; rfl)⟩

/-- The two analyzer filters compose: a group's bucket is just the records
assigned to that group (classified-ness is implied). -/
theorem groupFarms_eq_filter (farms : List FarmData) (g : FarmGroup) :
    groupFarms farms g = farms.filter fun f => decide (f.group = some g) := by
  rw [groupFarms, classifiedFarms, List.filter_filter]
  apply List.filter_congr
  intro f _
  cases hf : f.group <;> simp [hf]

/-- Dropping zero counts from the tally does not change its sum. -/
theorem sum_filterMap_pos_counts (f : FarmGroup → String)
    (cnt : FarmGroup → Nat) :
    ∀ L : List FarmGroup,
      ((L.filterMap fun g =>
          if 0 < cnt g then some (f g, cnt g) else none).map Prod.snd).sum
        = (L.map cnt).sum := by
  intro L
  induction L with
  | nil => rfl
  | cons g L ih =>
      by_cases h : 0 < cnt g
      · simp [List.filterMap_cons, h, ih]
      · have hz : cnt g = 0 := by omega
        simp [List.filterMap_cons, h, ih, hz]

/-- Each record lands in exactly one bucket: the six per-group counts plus
the unclassified count partition the record list. -/
theorem group_counts_partition (farms : List FarmData) :
    (FarmGroup.all.map fun g =>
        (farms.filter fun f => decide (f.group = some g)).length).sum
      + unclassifiedCount farms = farms.length := by
  induction farms with
  | nil => simp [unclassifiedCount, FarmGroup.all]
  | cons f fs ih =>
      rcases hg : f.group with _ | g0
      · have hstep : ∀ g : FarmGroup,
            ((f :: fs).filter fun x => decide (x.group = some g))
              = fs.filter fun x => decide (x.group = some g) := by
          intro g; rw [List.filter_cons]; simp [hg]
        have huc : unclassifiedCount (f :: fs)
            = unclassifiedCount fs + 1 := by
          rw [unclassifiedCount, unclassifiedCount, List.filter_cons]
          simp [hg]
        simp only [hstep, huc, List.length_cons]
        omega
      · have hstep : ∀ g : FarmGroup,
            ((f :: fs).filter fun x => decide (x.group = some g)).length
              = ((fs.filter fun x => decide (x.group = some g)).length
                  + if g0 = g then 1 else 0) := by
          intro g
          rw [List.filter_cons]
          by_cases h : g0 = g
          · subst h; simp [hg]
          · simp [hg, h]
        have huc : unclassifiedCount (f :: fs) = unclassifiedCount fs := by
          rw [unclassifiedCount, unclassifiedCount, List.filter_cons]
          simp [hg]
        simp only [FarmGroup.all, List.map_cons, List.map_nil,
          List.sum_cons, List.sum_nil, hstep, huc, List.length_cons] at ih ⊢
        cases g0 <;> simp <;> omega

/-- Claim C7 (code bug). The tally logic of `get_group_counts` over the
working table satisfies everything the claim states — positive counts, an
`"Unclassified"` entry exactly when a null-group record exists, counts
summing to the record count — but in the source it is unreachable for any
non-empty record list, because `FarmAnalyzer.__init__` raises
`AttributeError` while building `self.df` before the tally can run. -/
theorem count_by_category_conservation :
    (∀ farms : List FarmData, farms ≠ [] →
        analyzerInit farms
          = .error (.attributeError "n_days_female_age3_double"))
      ∧ ∀ farms : List FarmData,
          ((getGroupCounts farms).map Prod.snd).sum = farms.length
            ∧ ((∃ e ∈ getGroupCounts farms, e.1 = "Unclassified")
                ↔ ∃ f ∈ farms, f.group = none)
            ∧ ∀ e ∈ getGroupCounts farms, 0 < e.2 := by
  refine ⟨analyzerInit_nonempty_attribute_error,
    fun farms => ⟨?_, ⟨?_, ?_⟩, ?_⟩⟩
  · rw [getGroupCounts, List.map_append, List.sum_append]
    simp only [groupFarms_eq_filter]
    rw [sum_filterMap_pos_counts]
    have hsplit := group_counts_partition farms
    by_cases hu : 0 < unclassifiedCount farms
    · rw [if_pos hu]; simpa using hsplit
    · rw [if_neg hu]; simp at hsplit ⊢; omega
  · rintro ⟨e, he, hname⟩
    rw [getGroupCounts, List.mem_append] at he
    rcases he with he | he
    · obtain ⟨g, _, hsome⟩ := List.mem_filterMap.mp he
      have hstr : ∀ g : FarmGroup, g.str ≠ "Unclassified" := by
        intro g; cases g <;> decide
      split at hsome
      · cases hsome
        exact absurd hname (hstr g)
      · cases hsome
    · split at he
      · next hu =>
          rw [unclassifiedCount] at hu
          obtain ⟨f, hf⟩ :=
            List.exists_mem_of_ne_nil _ (List.length_pos.mp hu)
          rw [List.mem_filter] at hf
          exact ⟨f, hf.1, Option.isNone_iff_eq_none.mp hf.2⟩
      · cases he
  · rintro ⟨f, hf, hnone⟩
    have hmem : f ∈ farms.filter fun x => x.group.isNone :=
      List.mem_filter.mpr ⟨hf, by simp [hnone]⟩
    have hu : 0 < unclassifiedCount farms := by
      rw [unclassifiedCount]; exact List.length_pos_of_mem hmem
    refine ⟨("Unclassified", unclassifiedCount farms), ?_, rfl⟩
    rw [getGroupCounts, List.mem_append]
    right
    rw [if_pos hu]
    exact List.mem_singleton.mpr rfl
  · intro e he
    rw [getGroupCounts, List.mem_append] at he
    rcases he with he | he
    · obtain ⟨g, _, hsome⟩ := List.mem_filterMap.mp he
      split at hsome
      · next hc => cases hsome; exact hc
      · cases hsome
    · split at he
      · next hu => rw [List.mem_singleton] at he; subst he; exact hu
      · cases he

/-- Witness for C7: the construction failure and the count conservation
at a concrete one-record list. -/
theorem count_by_category_conservation_witness :
    analyzerInit [mkIndFarm 0 0 0 0 0 0]
        = .error (.attributeError "n_days_female_age3_double")
      ∧ ((getGroupCounts [mkIndFarm 0 0 0 0 0 0]).map Prod.snd).sum
          = [mkIndFarm 0 0 0 0 0 0].length :=
  ⟨count_by_category_conservation.1 _ (by simp),
   (count_by_category_conservation.2 _).1⟩

/-! Order facts about the series statistics. -/

/-- A left fold of `min` is a lower bound of the seed and the folded list. -/
theorem foldlMin_le {α : Type} [LinearOrder α] :
    ∀ (xs : List α) (x : α), ∀ y ∈ x :: xs, xs.foldl min x ≤ y := by
  intro xs
  induction xs with
  | nil =>
      intro x y hy
      rw [List.mem_singleton] at hy
      subst hy
      exact le_rfl
  | cons z zs ih =>
      intro x y hy
      show zs.foldl min (min x z) ≤ y
      rcases List.mem_cons.mp hy with h | hy'
      · rw [h]
        exact le_trans (ih (min x z) (min x z) (List.mem_cons_self _ _))
          (min_le_left _ _)
      · rcases List.mem_cons.mp hy' with h | hy''
        · rw [h]
          exact le_trans (ih (min x z) (min x z) (List.mem_cons_self _ _))
            (min_le_right _ _)
        · exact ih (min x z) y (List.mem_cons_of_mem _ hy'')

/-- A left fold of `min` is one of the seed and the folded list. -/
theorem foldlMin_mem {α : Type} [LinearOrder α] :
    ∀ (xs : List α) (x : α), xs.foldl min x ∈ x :: xs := by
  intro xs
  induction xs with
  | nil => intro x; exact List.mem_singleton.mpr rfl
  | cons z zs ih =>
      intro x
      show zs.foldl min (min x z) ∈ x :: z :: zs
      rcases List.mem_cons.mp (ih (min x z)) with h | h
      · rcases min_choice x z with hc | hc
        · rw [h, hc]; exact List.mem_cons_self _ _
        · rw [h, hc]; exact List.mem_cons_of_mem _ (List.mem_cons_self _ _)
      · exact List.mem_cons_of_mem _ (List.mem_cons_of_mem _ h)

/-- A left fold of `max` is an upper bound of the seed and the folded list. -/
theorem le_foldlMax {α : Type} [LinearOrder α] :
    ∀ (xs : List α) (x : α), ∀ y ∈ x :: xs, y ≤ xs.foldl max x := by
  intro xs
  induction xs with
  | nil =>
      intro x y hy
      rw [List.mem_singleton] at hy
      subst hy
      exact le_rfl
  | cons z zs ih =>
      intro x y hy
      show y ≤ zs.foldl max (max x z)
      rcases List.mem_cons.mp hy with h | hy'
      · rw [h]
        exact le_trans (le_max_left _ _)
          (ih (max x z) (max x z) (List.mem_cons_self _ _))
      · rcases List.mem_cons.mp hy' with h | hy''
        · rw [h]
          exact le_trans (le_max_right _ _)
            (ih (max x z) (max x z) (List.mem_cons_self _ _))
        · exact ih (max x z) y (List.mem_cons_of_mem _ hy'')

/-- A left fold of `max` is one of the seed and the folded list. -/
theorem foldlMax_mem {α : Type} [LinearOrder α] :
    ∀ (xs : List α) (x : α), xs.foldl max x ∈ x :: xs := by
  intro xs
  induction xs with
  | nil => intro x; exact List.mem_singleton.mpr rfl
  | cons z zs ih =>
      intro x
      show zs.foldl max (max x z) ∈ x :: z :: zs
      rcases List.mem_cons.mp (ih (max x z)) with h | h
      · rcases max_choice x z with hc | hc
        · rw [h, hc]; exact List.mem_cons_self _ _
        · rw [h, hc]; exact List.mem_cons_of_mem _ (List.mem_cons_self _ _)
      · exact List.mem_cons_of_mem _ (List.mem_cons_of_mem _ h)

/-- When defined, `seriesMin` is a valid value and a lower bound of the
valid values. -/
theorem seriesMin_spec {vals : List (Option ℚ)} {m : ℚ}
    (h : seriesMin vals = some m) :
    m ∈ validValues vals ∧ ∀ y ∈ validValues vals, m ≤ y := by
  rw [seriesMin] at h
  cases hv : validValues vals with
  | nil => rw [hv] at h; cases h
  | cons x xs =>
      rw [hv] at h
      obtain rfl := (Option.some.inj h).symm
      exact ⟨foldlMin_mem xs x, fun y hy => foldlMin_le xs x y hy⟩

/-- When defined, `seriesMax` is a valid value and an upper bound of the
valid values. -/
theorem seriesMax_spec {vals : List (Option ℚ)} {M : ℚ}
    (h : seriesMax vals = some M) :
    M ∈ validValues vals ∧ ∀ y ∈ validValues vals, y ≤ M := by
  rw [seriesMax] at h
  cases hv : validValues vals with
  | nil => rw [hv] at h; cases h
  | cons x xs =>
      rw [hv] at h
      obtain rfl := (Option.some.inj h).symm
      exact ⟨foldlMax_mem xs x, fun y hy => le_foldlMax xs x y hy⟩

/-- A list sum is at most the length times an upper bound. -/
theorem sum_le_length_mul (v : List ℚ) (M : ℚ) (h : ∀ x ∈ v, x ≤ M) :
    v.sum ≤ (v.length : ℚ) * M := by
  induction v with
  | nil => simp
  | cons x xs ih =>
      have hx := h x (List.mem_cons_self _ _)
      have hxs := ih fun y hy => h y (List.mem_cons_of_mem _ hy)
      rw [List.sum_cons, List.length_cons]
      have hring : ((xs.length + 1 : Nat) : ℚ) * M
          = (xs.length : ℚ) * M + M := by push_cast; ring
      rw [hring]
      linarith

/-- A list sum is at least the length times a lower bound. -/
theorem length_mul_le_sum (v : List ℚ) (m : ℚ) (h : ∀ x ∈ v, m ≤ x) :
    (v.length : ℚ) * m ≤ v.sum := by
  induction v with
  | nil => simp
  | cons x xs ih =>
      have hx := h x (List.mem_cons_self _ _)
      have hxs := ih fun y hy => h y (List.mem_cons_of_mem _ hy)
      rw [List.sum_cons, List.length_cons]
      have hring : ((xs.length + 1 : Nat) : ℚ) * m
          = (xs.length : ℚ) * m + m := by push_cast; ring
      rw [hring]
      linarith

/-- The mean of a series lies between its min and its max. -/
theorem seriesMean_bounds {vals : List (Option ℚ)} {m M μ : ℚ}
    (hm : seriesMin vals = some m) (hM : seriesMax vals = some M)
    (hμ : seriesMean vals = some μ) : m ≤ μ ∧ μ ≤ M := by
  obtain ⟨_, hlb⟩ := seriesMin_spec hm
  obtain ⟨_, hub⟩ := seriesMax_spec hM
  simp only [seriesMean] at hμ
  split at hμ
  · cases hμ
  · next hlen =>
      obtain rfl := (Option.some.inj hμ).symm
      have hpos : (0 : ℚ) < ((validValues vals).length : ℚ) := by
        exact_mod_cast Nat.pos_of_ne_zero hlen
      constructor
      · rw [le_div_iff₀ hpos]
        have := length_mul_le_sum (validValues vals) m hlb
        linarith
      · rw [div_le_iff₀ hpos]
        have := sum_le_length_mul (validValues vals) M hub
        linarith

/-- An in-range `getD` returns a member of the list. -/
theorem getD_mem {α : Type} :
    ∀ (l : List α) (i : Nat) (d : α), i < l.length → l.getD i d ∈ l := by
  intro l
  induction l with
  | nil => intro i d h; simp at h
  | cons x xs ih =>
      intro i d h
      cases i with
      | zero => rw [List.getD_cons_zero]; exact List.mem_cons_self _ _
      | succ i =>
          rw [List.getD_cons_succ]
          exact List.mem_cons_of_mem _ (ih i d (by simpa using h))

/-- The median of a series lies between its min and its max. -/
theorem seriesMedian_bounds {vals : List (Option ℚ)} {m M d : ℚ}
    (hm : seriesMin vals = some m) (hM : seriesMax vals = some M)
    (hd : seriesMedian vals = some d) : m ≤ d ∧ d ≤ M := by
  obtain ⟨_, hlb⟩ := seriesMin_spec hm
  obtain ⟨_, hub⟩ := seriesMax_spec hM
  simp only [seriesMedian] at hd
  have hperm : ((validValues vals).insertionSort (· ≤ ·)).Perm
      (validValues vals) := List.perm_insertionSort _ _
  have hrange : ∀ y ∈ (validValues vals).insertionSort (· ≤ ·),
      m ≤ y ∧ y ≤ M := fun y hy =>
    ⟨hlb y (hperm.mem_iff.mp hy), hub y (hperm.mem_iff.mp hy)⟩
  split at hd
  · cases hd
  · next hlen =>
      split at hd
      · obtain rfl := (Option.some.inj hd).symm
        exact hrange _ (getD_mem _ _ _ (by omega))
      · obtain rfl := (Option.some.inj hd).symm
        obtain ⟨ha1, ha2⟩ := hrange _
          (getD_mem ((validValues vals).insertionSort (· ≤ ·))
            (((validValues vals).insertionSort (· ≤ ·)).length / 2 - 1) 0
            (by omega))
        obtain ⟨hb1, hb2⟩ := hrange _
          (getD_mem ((validValues vals).insertionSort (· ≤ ·))
            (((validValues vals).insertionSort (· ≤ ·)).length / 2) 0
            (by omega))
        constructor <;> linarith

/-- The median of an even-length series is the average of the two middle
values of (any presentation of) its sorted valid values. -/
theorem seriesMedian_even {vals : List (Option ℚ)} {d : ℚ}
    (hd : seriesMedian vals = some d) :
    ∀ s : List ℚ, s.Perm (validValues vals) → s.Sorted (· ≤ ·) →
      s.length % 2 = 0 →
      d = (s.getD (s.length / 2 - 1) 0 + s.getD (s.length / 2) 0) / 2 := by
  intro s hp hsort heven
  have hseq : s = (validValues vals).insertionSort (· ≤ ·) :=
    List.eq_of_perm_of_sorted
      (hp.trans (List.perm_insertionSort _ _).symm) hsort
      (List.sorted_insertionSort _ _)
  subst hseq
  simp only [seriesMedian] at hd
  split at hd
  · cases hd
  · split at hd
    · omega
    · exact (Option.some.inj hd).symm

/-! Membership characterisations of the statistics rows. -/

/-- Every produced row is the row computed for its own group. -/
theorem mem_calcStats {farms : List FarmData} {row : GroupStatsRow}
    (h : row ∈ calculateGroupStatistics farms) :
    row = mkGroupRow farms row.group ∧ groupFarms farms row.group ≠ [] := by
  obtain ⟨g, _, hsome⟩ := List.mem_filterMap.mp h
  split at hsome
  · cases hsome
  · next hne =>
      cases hsome
      refine ⟨rfl, ?_⟩
      intro hcontra
      have hg : (mkGroupRow farms g).group = g := rfl
      rw [hg] at hcontra
      rw [hcontra] at hne
      exact hne rfl

/-- Every field entry of a group's row carries that field's series
statistics. -/
theorem mem_rowStats {farms : List FarmData} {g : FarmGroup}
    {fld : NumericField} {fs : FieldStats}
    (h : (fld, fs) ∈ (mkGroupRow farms g).stats) :
    fs = mkFieldStats (groupCells farms g fld) := by
  simp only [mkGroupRow] at h
  obtain ⟨fld', _, hsome⟩ := List.mem_filterMap.mp h
  split at hsome
  · have hpair := Option.some.inj hsome
    injection hpair with h1 h2
    subst h1
    exact h2.symm
  · cases hsome

/-- Claim C8. In every group row of `calculate_group_statistics`, every field
with at least one valid value satisfies `min ≤ mean ≤ max` and
`min ≤ median ≤ max`, and for an even count of valid values the median is
the average of the two middle sorted values. -/
theorem group_statistics_bounds :
    ∀ (farms : List FarmData) (row : GroupStatsRow) (fld : NumericField)
      (fs : FieldStats),
      row ∈ calculateGroupStatistics farms →
      (fld, fs) ∈ row.stats →
      ∀ m M μ d : ℚ,
        fs.min = some m → fs.max = some M → fs.mean = some μ →
        fs.median = some d →
        (m ≤ μ ∧ μ ≤ M ∧ m ≤ d ∧ d ≤ M)
          ∧ ∀ s : List ℚ,
              s.Perm (fieldValidValues farms row.group fld) →
              s.Sorted (· ≤ ·) → s.length % 2 = 0 →
              d = (s.getD (s.length / 2 - 1) 0 + s.getD (s.length / 2) 0) / 2 := by
  intro farms row fld fs hrow hstats m M μ d hm hM hμ hd
  rw [(mem_calcStats hrow).1] at hstats
  have hfs := mem_rowStats hstats
  subst hfs
  simp only [mkFieldStats] at hm hM hμ hd
  obtain ⟨h1, h2⟩ := seriesMean_bounds hm hM hμ
  obtain ⟨h3, h4⟩ := seriesMedian_bounds hm hM hd
  exact ⟨⟨h1, h2, h3, h4⟩, fun s hp hs he => seriesMedian_even hd s hp hs he⟩

/-- A classified Mother-Cow record whose every numeric cell holds `q`. -/
def statFarm (q : ℚ) : FarmData :=
  { mkIndFarm 0 0 0 0 0 1 with
    group := some FarmGroup.muku
    numerics := fun _ => some q }

/-- Two Mother-Cow records with field values 10 and 30. -/
def statFarms : List FarmData := [statFarm 10, statFarm 30]

/-- Witness for C8: the bounds at a concrete two-record group
(values 10 and 30, so min 10, mean 20, median 20, max 30). -/
theorem group_statistics_bounds_witness :
    (10 : ℚ) ≤ 20 ∧ (20 : ℚ) ≤ 30 ∧ (10 : ℚ) ≤ 20 ∧ (20 : ℚ) ≤ 30 := by
  have hv : validValues (groupCells statFarms FarmGroup.muku
      NumericField.nAnimalsTotal) = [10, 30] := rfl
  have hrow : mkGroupRow statFarms FarmGroup.muku
      ∈ calculateGroupStatistics statFarms := by
    rw [show calculateGroupStatistics statFarms
        = [mkGroupRow statFarms FarmGroup.muku] from rfl]
    exact List.mem_singleton.mpr rfl
  have hstats : (NumericField.nAnimalsTotal,
        mkFieldStats (groupCells statFarms FarmGroup.muku
          NumericField.nAnimalsTotal))
      ∈ (mkGroupRow statFarms FarmGroup.muku).stats := by
    simp only [mkGroupRow]
    exact List.mem_filterMap.mpr
      ⟨NumericField.nAnimalsTotal, by simp [numericFields], rfl⟩
  have hmean : (mkFieldStats (groupCells statFarms FarmGroup.muku
      NumericField.nAnimalsTotal)).mean = some 20 := by
    simp only [mkFieldStats, seriesMean, hv]
    norm_num
  have hsort : ((validValues (groupCells statFarms FarmGroup.muku
      NumericField.nAnimalsTotal)).insertionSort (· ≤ ·)) = [10, 30] := by
    rw [hv]
    norm_num [List.insertionSort, List.orderedInsert]
  have hmedian : (mkFieldStats (groupCells statFarms FarmGroup.muku
      NumericField.nAnimalsTotal)).median = some 20 := by
    simp only [mkFieldStats, seriesMedian, hsort]
    norm_num
  exact (group_statistics_bounds statFarms
    (mkGroupRow statFarms FarmGroup.muku) NumericField.nAnimalsTotal
    (mkFieldStats (groupCells statFarms FarmGroup.muku
      NumericField.nAnimalsTotal))
    hrow hstats 10 30 20 20 (by decide) (by decide) hmean hmedian).1

end Muka
